import Mathlib

/-!
Verification development for the getBusinessDetailsFromPlaces repository.

The repository contains several revisions of one TypeScript function that
queries a places-lookup service and decides, with string heuristics, whether
a returned place matches the searched business.  This file gives a shallow
embedding of those revisions:

* character/string primitives model the JavaScript string operations used by
  the code (normalize("NFD") accent stripping, the [^a-zA-Z0-9\s] filter,
  toLowerCase, trim, split on whitespace runs, String.prototype.includes,
  toUpperCase, the truthiness idioms s || t and n || 1);
* the external places client and the local text-classification model are
  modelled as environments mapping each query, place id and prompt to an
  outcome (a thrown error, or a response value);
* the multi-candidate revision (src/src/index.ts, duplicated in
  src/unnamed/part_002) is embedded as pure functions; the stateful
  initializer machinery of part_002 is embedded with explicit module-state
  passing; the earlier two-query revision (src/unnamed/part_001) and the
  HTTP handler (src/src/server.ts) are embedded in their own namespaces.

JavaScript numbers are modelled as rationals; every threshold comparison in
the source involves only small integer ratios and the literals 0.5, 0.3 and
0.85, where IEEE double division and rational division agree.
-/

set_option maxRecDepth 4000
set_option maxHeartbeats 1000000
set_option linter.unusedVariables false

namespace Places

/-- JS \s whitespace class: ASCII whitespace plus the Unicode space
separators, line separators and BOM matched by /\s/ in JavaScript. -/
def isJsWhitespace (c : Char) : Bool :=
  c = ' ' || c = '\t' || c = '\n' || c = '\u000b' || c = '\u000c' || c = '\r' ||
  c = '\u00a0' || c = '\u1680' || ('\u2000' ≤ c && c ≤ '\u200a') ||
  c = '\u2028' || c = '\u2029' || c = '\u202f' || c = '\u205f' || c = '\u3000' || c = '\ufeff'

/-- Model of str.normalize("NFD") followed by removal of the combining marks
U+0300..U+036F, per character: an accented Latin letter decomposes into its
base letter plus a combining mark and the mark is dropped, so the letter maps
to its base; the table covers the accented Latin-1 letters that occur in this
repository's data; characters without a listed decomposition are unchanged
(characters that JavaScript would leave composed, such as œ, are removed by
the subsequent [^a-zA-Z0-9\s] filter in both the source and this model). -/
def stripAccentChar (c : Char) : Char :=
  match c with
  | 'à' | 'á' | 'â' | 'ã' | 'ä' | 'å' => 'a'
  | 'è' | 'é' | 'ê' | 'ë' => 'e'
  | 'ì' | 'í' | 'î' | 'ï' => 'i'
  | 'ò' | 'ó' | 'ô' | 'õ' | 'ö' => 'o'
  | 'ù' | 'ú' | 'û' | 'ü' => 'u'
  | 'ý' | 'ÿ' => 'y'
  | 'ç' => 'c'
  | 'ñ' => 'n'
  | 'À' | 'Á' | 'Â' | 'Ã' | 'Ä' | 'Å' => 'A'
  | 'È' | 'É' | 'Ê' | 'Ë' => 'E'
  | 'Ì' | 'Í' | 'Î' | 'Ï' => 'I'
  | 'Ò' | 'Ó' | 'Ô' | 'Õ' | 'Ö' => 'O'
  | 'Ù' | 'Ú' | 'Û' | 'Ü' => 'U'
  | 'Ý' => 'Y'
  | 'Ç' => 'C'
  | 'Ñ' => 'N'
  | _ => c

/-- The character class [a-zA-Z0-9\s] kept by the replace(/[^a-zA-Z0-9\s]/g, '')
step of the source's normalize helpers. -/
def keepChar (c : Char) : Bool :=
  ('a' ≤ c && c ≤ 'z') || ('A' ≤ c && c ≤ 'Z') || ('0' ≤ c && c ≤ '9') || isJsWhitespace c

/-- Model of String.prototype.trim: drop whitespace from both ends. -/
def trimChars (l : List Char) : List Char :=
  ((l.dropWhile isJsWhitespace).reverse.dropWhile isJsWhitespace).reverse

/-- The normalize helper shared by the isValidMatch revisions and part_001's
normalizeText: strip accents (NFD then removal of combining marks), keep only
[a-zA-Z0-9\s], lowercase, trim.  The source's trailing empty-string fallback
for a nullish receiver never fires on the string arguments it receives. -/
def normalize (str : String) : String :=
  String.mk (trimChars (((str.data.map stripAccentChar).filter keepChar).map Char.toLower))

/-- Splitting on runs of whitespace, accumulating the current word. -/
def wordsAux : List Char → List Char → List (List Char)
  | cur, [] => if cur.isEmpty then [] else [cur.reverse]
  | cur, c :: cs =>
    if isJsWhitespace c then
      if cur.isEmpty then wordsAux [] cs else cur.reverse :: wordsAux [] cs
    else wordsAux (c :: cur) cs

/-- Model of s.split(/\s+/) for the trimmed strings it is applied to in the
source: a run of whitespace separates consecutive words, and the empty string
splits to [""] in JavaScript, which the special case reproduces. -/
def jsSplitWs (s : String) : List String :=
  if s = ("") then [("")] else (wordsAux [] s.data).map String.mk

/-- needle is a prefix of the second list. -/
def startsWithChars : List Char → List Char → Bool
  | [], _ => true
  | _ :: _, [] => false
  | a :: as, b :: bs => a = b && startsWithChars as bs

/-- needle occurs as a contiguous sublist of the haystack. -/
def containsChars (needle : List Char) : List Char → Bool
  | [] => startsWithChars needle []
  | c :: rest => startsWithChars needle (c :: rest) || containsChars needle rest

/-- Model of hay.includes(needle) in JavaScript: substring containment; every
string contains the empty string. -/
def strContains (hay needle : String) : Bool :=
  containsChars needle.data hay.data

/-- Model of s.toUpperCase() for the ASCII label strings it is applied to. -/
def jsToUpper (s : String) : String :=
  String.mk (s.data.map Char.toUpper)

/-- Model of the idiom v || '' on an optional string field. -/
def orEmpty : Option String → String
  | none => ("")
  | some s => s

/-- Model of the JavaScript idiom a || b on an optional string a: the empty
string is falsy, so both a missing field and an empty one fall back to b. -/
def jsOrStr : Option String → String → String
  | none, b => b
  | some s, b => if s = ("") then b else s

/-- Model of the idiom n || 1 on an array length: 0 is falsy. -/
def jsOrOne (n : Nat) : Nat :=
  if n = 0 then 1 else n

/-- Coordinates as returned in result.geometry.location. -/
structure LatLng where
  lat : ℚ
  lng : ℚ
deriving DecidableEq

/-- result.geometry, whose location field is consulted with ?. . -/
structure Geometry where
  location : Option LatLng
deriving DecidableEq

/-- result.opening_hours, whose weekday_text field is consulted with ?. . -/
structure OpeningHours where
  weekday_text : Option (List String)
deriving DecidableEq

/-- A findPlaceFromText candidate with the three requested fields, each of
which may be absent. -/
structure Candidate where
  place_id : Option String
  name : Option String
  formatted_address : Option String
deriving DecidableEq

/-- A placeDetails result record with the requested fields. -/
structure PlaceResult where
  name : Option String
  formatted_address : Option String
  international_phone_number : Option String
  website : Option String
  opening_hours : Option OpeningHours
  rating : Option ℚ
  user_ratings_total : Option Nat
  url : Option String
  geometry : Option Geometry
deriving DecidableEq

/-- Coordinates in the returned record (lon is set from location.lng). -/
structure Coordinates where
  lat : ℚ
  lon : ℚ
deriving DecidableEq

/-- The BusinessDetails interface of the multi-candidate revisions. -/
structure BusinessDetails where
  nom : String
  adresse : String
  phone : Option String
  website : Option String
  openingHours : Option (List String)
  rating : Option ℚ
  reviewCount : Option Nat
  googleMapsUrl : Option String
  placeId : Option String
  geolocalisation : Option Coordinates
deriving DecidableEq

/-- The record destructured from a text-classification output: its label and
score (Array.isArray unwrapping of a singleton list is left implicit: the
environment directly supplies the record the source destructures). -/
structure LlmResult where
  label : String
  score : ℚ
deriving DecidableEq

/-- Outcome of one findPlaceFromText call: the call may throw, or return a
response whose data.candidates field may be absent. -/
inductive SearchOutcome where
  | throws
  | ok (candidates : Option (List Candidate))
deriving DecidableEq

/-- Outcome of one placeDetails call: the call may throw, or return a
response whose data.result field may be absent. -/
inductive DetailsOutcome where
  | throws
  | ok (result : Option PlaceResult)
deriving DecidableEq

/-- The places client as a deterministic environment: each query string is
mapped to the outcome of findPlaceFromText on it, and each place id to the
outcome of placeDetails on it. -/
structure PlacesEnv where
  search : String → SearchOutcome
  details : String → DetailsOutcome

/-- The commonNameWordsToFilter list hardcoded in src/src/index.ts's
isValidMatch. -/
def commonNameWordsToFilter : List String :=
  ["du", "de", "la", "le", "des", "et", "a", "un", "une", "the", "museum", "l"]

/-- The commonAddressWordsToFilter list of the isValidMatch revisions
(transcribed as written, including the repeated entry). -/
def commonAddressWordsToFilter : List String :=
  ["route", "rue", "avenue", "chemin", "impasse", "place", "bld", "boulevard",
   "st", "saint", "street", "road", "avenue", "court", "lane", "drive", "terrace"]

/-- searchNameWords / foundNameWords of isValidMatch: split the normalized
name on whitespace and keep the words of length greater than 2 that are not
in the generic name-word filter list (src/src/index.ts uses the hardcoded
commonNameWordsToFilter; part_002 uses the set loaded by
initializeCommonNameFilters, so the filter is a parameter here). -/
def nameWords (nameFilter : List String) (s : String) : List String :=
  (jsSplitWs (normalize s)).filter (fun w => decide (w.length > 2) && !(nameFilter.contains w))

/-- searchAddrWords / foundAddrWords of isValidMatch: split the normalized
address on whitespace and keep the words of length greater than 3 that are
not generic street types. -/
def addrWords (s : String) : List String :=
  (jsSplitWs (normalize s)).filter (fun w => decide (w.length > 3) && !(commonAddressWordsToFilter.contains w))

/-- nameWordIntersections of isValidMatch: the search name words that also
occur among the found name words. -/
def nameWordIntersections (nameFilter : List String) (searchName foundName : String) : List String :=
  (nameWords nameFilter searchName).filter (fun w => (nameWords nameFilter foundName).contains w)

/-- nameOverlapRatio of isValidMatch: shared name words divided by the larger
word-list length, each length replaced by 1 when zero. -/
def nameOverlapRatio (nameFilter : List String) (searchName foundName : String) : ℚ :=
  ((nameWordIntersections nameFilter searchName foundName).length : ℚ) /
    ((max (jsOrOne (nameWords nameFilter searchName).length)
          (jsOrOne (nameWords nameFilter foundName).length) : ℕ) : ℚ)

/-- strongNameMatch of isValidMatch: nameOverlapRatio >= 0.5.  Written in the
exactly equivalent cross-multiplied integer form (shared * 2 >= larger
length), so that the definition evaluates by kernel reduction; the theorem
strongNameMatch_spec proves it equal to the rational-ratio comparison of the
source line (0.5 is exactly representable as an IEEE double and the operands
are small integers, so double division and exact rational division decide
this comparison identically). -/
def strongNameMatch (nameFilter : List String) (searchName foundName : String) : Bool :=
  decide (max (jsOrOne (nameWords nameFilter searchName).length)
              (jsOrOne (nameWords nameFilter foundName).length)
            ≤ 2 * (nameWordIntersections nameFilter searchName foundName).length)

/-- addrWordIntersections of isValidMatch. -/
def addrWordIntersections (searchAddress foundAddress : String) : List String :=
  (addrWords searchAddress).filter (fun w => (addrWords foundAddress).contains w)

/-- The ratio of the basicAddrWordOverlap test: shared address words divided
by the smaller word-list length, each length replaced by 1 when zero. -/
def addrOverlapRatio (searchAddress foundAddress : String) : ℚ :=
  ((addrWordIntersections searchAddress foundAddress).length : ℚ) /
    ((min (jsOrOne (addrWords searchAddress).length)
          (jsOrOne (addrWords foundAddress).length) : ℕ) : ℚ)

/-- basicAddrWordOverlap of isValidMatch: some shared address word, and
addrOverlapRatio >= 0.3.  Written in the exactly equivalent cross-multiplied
integer form (shared * 10 >= smaller length * 3) so that the definition
evaluates by kernel reduction; the theorem basicAddrWordOverlap_spec proves
it equal to the rational-ratio comparison of the source line (for the integer
operand ranges reachable from JavaScript strings, the double comparison
against the literal 0.3 decides exactly as the rational one). -/
def basicAddrWordOverlap (searchAddress foundAddress : String) : Bool :=
  decide ((addrWordIntersections searchAddress foundAddress).length > 0) &&
  decide (3 * min (jsOrOne (addrWords searchAddress).length)
                  (jsOrOne (addrWords foundAddress).length)
            ≤ 10 * (addrWordIntersections searchAddress foundAddress).length)

/-- The reduce((a, b) => a.length > b.length ? a : b) pick of the longest
word, or the empty string for an empty list. -/
def longestWord : List String → String
  | [] => ("")
  | w :: ws => ws.foldl (fun a b => if a.length > b.length then a else b) w

/-- primarySearchStreetNamePart of isValidMatch: the longest non-generic word
of the search address, or the empty string when there is none. -/
def primarySearchStreetNamePart (searchAddress : String) : String :=
  longestWord (addrWords searchAddress)

/-- addressContainsSearchStreet of isValidMatch: the primary street word is
nonempty and occurs in the normalized found address. -/
def addressContainsSearchStreet (searchAddress foundAddress : String) : Bool :=
  decide ((primarySearchStreetNamePart searchAddress).length > 0) &&
  strContains (normalize foundAddress) (primarySearchStreetNamePart searchAddress)

/-- One consultation of the local text-classification model inside
isValidMatch: the model may be uninitialized (llmMatcher null or undefined),
its inference may throw, or it returns a label/score record.  The result is
accepted exactly when the uppercased label contains YES and the score exceeds
0.85; an uninitialized model or a thrown inference rejects.  The score test
is written in the exactly equivalent cross-multiplied form 85 * den <
num * 100, so that the definition evaluates by kernel reduction; the theorem
llmDecision_spec proves it equal to the comparison against the rational
17/20, and no IEEE double lies strictly between the double nearest 0.85 and
17/20, so the double comparison of the source decides identically. -/
def llmDecision : Option (Except Unit LlmResult) → Bool
  | some (Except.ok r) =>
    strContains (jsToUpper r.label) ("YES") && decide (85 * (r.score.den : ℤ) < r.score.num * 100)
  | some (Except.error _) => false
  | none => false

/-- The body of isValidMatch after the postal-code gate: the primary rule
(strong name match and postal-code containment), then the secondary rule
(strong name match and an address hint), then the text-classification
tie-break when there is a shared name word, a basic address word overlap, or
the found address contains the primary search street word.  llmAns is the
outcome of the one model consultation this invocation could make. -/
def isValidMatchCore (nameFilter : List String) (llmAns : Option (Except Unit LlmResult))
    (searchName searchAddress searchPostalCode foundName foundAddress : String) : Bool :=
  if strongNameMatch nameFilter searchName foundName && strContains foundAddress searchPostalCode then
    true
  else if strongNameMatch nameFilter searchName foundName &&
      (basicAddrWordOverlap searchAddress foundAddress ||
       addressContainsSearchStreet searchAddress foundAddress) then
    true
  else if decide ((nameWordIntersections nameFilter searchName foundName).length > 0) ||
      basicAddrWordOverlap searchAddress foundAddress ||
      addressContainsSearchStreet searchAddress foundAddress then
    llmDecision llmAns
  else
    false

/-- isValidMatch of the multi-candidate revisions: the found formatted
address must contain the searched postal code, otherwise the candidate is
rejected before any name or address comparison; then the rule cascade of
isValidMatchCore decides. -/
def isValidMatchG (nameFilter : List String) (llmAns : Option (Except Unit LlmResult))
    (searchName searchAddress searchPostalCode foundName foundAddress : String) : Bool :=
  if !(strContains foundAddress searchPostalCode) then false
  else isValidMatchCore nameFilter llmAns searchName searchAddress searchPostalCode foundName foundAddress

/-- The fixed query-variant list of the four-query revisions, in source
order: name-address-postal, name-postal, name-address, then bare name. -/
def queries (businessName address postalCode : String) : List String :=
  [businessName ++ (", ") ++ address ++ (", ") ++ postalCode,
   businessName ++ (", ") ++ postalCode,
   businessName ++ (", ") ++ address,
   businessName]

/-- The findPlaceFromText loop of the four-query revisions: try each query in
order; a thrown call, an absent candidates field and an empty candidates
array each skip to the next query; the first nonempty candidates array is
adopted and the remaining queries are not issued; the empty list is returned
when every query fails. -/
def runQueries (env : PlacesEnv) : List String → List Candidate
  | [] => []
  | q :: rest =>
    match env.search q with
    | SearchOutcome.throws => runQueries env rest
    | SearchOutcome.ok none => runQueries env rest
    | SearchOutcome.ok (some cs) => if cs.isEmpty then runQueries env rest else cs

/-- The BusinessDetails record built by the multi-candidate revisions from a
validated details result: name and formatted address fall back to the
searched values when falsy, the remaining fields are copied, and coordinates
are taken from geometry.location when present. -/
def mkBusinessDetails (businessName address pid : String) (r : PlaceResult) : BusinessDetails :=
  { nom := jsOrStr r.name businessName
    adresse := jsOrStr r.formatted_address address
    phone := r.international_phone_number
    website := r.website
    openingHours := r.opening_hours.bind OpeningHours.weekday_text
    rating := r.rating
    reviewCount := r.user_ratings_total
    googleMapsUrl := r.url
    placeId := some pid
    geolocalisation := (r.geometry.bind Geometry.location).map (fun loc => { lat := loc.lat, lon := loc.lng }) }

/-- The candidate loop of the four-query revisions: a candidate without a
place id is skipped; a thrown placeDetails call and an absent result are
skipped; otherwise isValidMatch decides on the detailed name and formatted
address (empty-string fallbacks applied), returning the built record on the
first pass.  llm maps the found name and address (the varying parts of the
model prompt) to the outcome of the one model consultation. -/
def evalCandidates (env : PlacesEnv) (nameFilter : List String)
    (llm : String → String → Option (Except Unit LlmResult))
    (businessName address postalCode : String) : List Candidate → Option BusinessDetails
  | [] => none
  | c :: rest =>
    match c.place_id with
    | none => evalCandidates env nameFilter llm businessName address postalCode rest
    | some pid =>
      match env.details pid with
      | DetailsOutcome.throws => evalCandidates env nameFilter llm businessName address postalCode rest
      | DetailsOutcome.ok none => evalCandidates env nameFilter llm businessName address postalCode rest
      | DetailsOutcome.ok (some r) =>
        if isValidMatchG nameFilter (llm (orEmpty r.name) (orEmpty r.formatted_address))
            businessName address postalCode (orEmpty r.name) (orEmpty r.formatted_address) then
          some (mkBusinessDetails businessName address pid r)
        else
          evalCandidates env nameFilter llm businessName address postalCode rest

/-- The shared body of the four-query revisions: run the query fallback loop,
return null when it adopted no candidates, otherwise evaluate the adopted
candidates. -/
def getBusinessDetailsCore (env : PlacesEnv) (nameFilter : List String)
    (llm : String → String → Option (Except Unit LlmResult))
    (businessName address postalCode : String) : Option BusinessDetails :=
  let candidates := runQueries env (queries businessName address postalCode)
  if candidates.isEmpty then none
  else evalCandidates env nameFilter llm businessName address postalCode candidates

/-- Environment of src/src/index.ts's revision: the places client plus the
current value of the module-level llmMatcher (none models the
null-or-undefined matcher; nothing in that revision ever assigns it). -/
structure Env extends PlacesEnv where
  llm : Option (String → String → Except Unit LlmResult)

/-- The per-candidate consultation outcome determined by the module-level
matcher of src/src/index.ts: none when the matcher is unset. -/
def envLlm (env : Env) : String → String → Option (Except Unit LlmResult) :=
  fun foundName foundAddress => env.llm.map (fun f => f foundName foundAddress)

/-- getBusinessDetailsFromPlaces of src/src/index.ts (the multi-candidate,
four-query revision): apiKey is passed through to the client calls, which the
environment already determines. -/
def getBusinessDetailsFromPlaces (env : Env) (businessName address postalCode apiKey : String) :
    Option BusinessDetails :=
  getBusinessDetailsCore env.toPlacesEnv commonNameWordsToFilter (envLlm env)
    businessName address postalCode

/-- A candidate passes when it has a place id whose details lookup returns a
result that isValidMatch accepts. -/
def candidatePasses (pe : PlacesEnv) (nameFilter : List String)
    (llm : String → String → Option (Except Unit LlmResult))
    (businessName address postalCode : String) (c : Candidate) : Prop :=
  ∃ pid r, c.place_id = some pid ∧ pe.details pid = DetailsOutcome.ok (some r) ∧
    isValidMatchG nameFilter (llm (orEmpty r.name) (orEmpty r.formatted_address))
      businessName address postalCode (orEmpty r.name) (orEmpty r.formatted_address) = true

/-- Modelled from the claim for the refinement comparison: isValidMatch with
the secondary rule (strong name match plus address hint) removed and
everything else unchanged. -/
def isValidMatchNoSecondaryRule (nameFilter : List String) (llmAns : Option (Except Unit LlmResult))
    (searchName searchAddress searchPostalCode foundName foundAddress : String) : Bool :=
  if !(strContains foundAddress searchPostalCode) then false
  else if strongNameMatch nameFilter searchName foundName && strContains foundAddress searchPostalCode then
    true
  else if decide ((nameWordIntersections nameFilter searchName foundName).length > 0) ||
      basicAddrWordOverlap searchAddress foundAddress ||
      addressContainsSearchStreet searchAddress foundAddress then
    llmDecision llmAns
  else
    false

/-- The exact situation in which isValidMatch consults the
text-classification model: the postal-code gate passed, neither the primary
nor the secondary rule accepted, and there is a shared name word, a basic
address word overlap, or the found address contains the primary search street
word. -/
def llmConsultCondition (nameFilter : List String)
    (searchName searchAddress searchPostalCode foundName foundAddress : String) : Prop :=
  strContains foundAddress searchPostalCode = true ∧
  (strongNameMatch nameFilter searchName foundName && strContains foundAddress searchPostalCode) = false ∧
  (strongNameMatch nameFilter searchName foundName &&
    (basicAddrWordOverlap searchAddress foundAddress ||
     addressContainsSearchStreet searchAddress foundAddress)) = false ∧
  (decide ((nameWordIntersections nameFilter searchName foundName).length > 0) ||
   basicAddrWordOverlap searchAddress foundAddress ||
   addressContainsSearchStreet searchAddress foundAddress) = true

namespace PartTwo

/-- The value of the module-level llmMatcher variable of part_002 as far as
control flow observes it: undefined (never assigned), null (assigned after a
failed pipeline load), or a loaded pipeline function. -/
inductive JsLlm where
  | undef
  | nullv
  | fn
deriving DecidableEq

/-- The module-level mutable state of part_002: llmMatcher,
_commonNamesInitialized and _genericNameWords (undefined until
initializeCommonNameFilters assigns it). -/
structure ModuleState where
  llmMatcher : JsLlm
  commonNamesInitialized : Bool
  genericNameWords : Option (List String)
deriving DecidableEq

/-- The state of the freshly loaded module: llmMatcher undefined,
_commonNamesInitialized false, _genericNameWords undefined. -/
def ModuleState.start : ModuleState :=
  { llmMatcher := JsLlm.undef, commonNamesInitialized := false, genericNameWords := none }

/-- Environment of part_002's revision: the places client, the outcome of
loading the classification pipeline (attempted by initializeLLM while
llmMatcher is falsy), and the inference outcome per found name and address
once the pipeline is loaded. -/
structure Env where
  search : String → SearchOutcome
  details : String → DetailsOutcome
  pipelineOk : Bool
  infer : String → String → Except Unit LlmResult

/-- The places-client part of a part_002 environment. -/
def Env.places (e : Env) : PlacesEnv :=
  { search := e.search, details := e.details }

/-- The hardcoded common-words list loaded by part_002's
initializeCommonNameFilters (transcribed verbatim from the source). -/
def commonWordsList : List String := [
    "03", "09", "1", "10", "100", "11", "12", "13", "15", "16",
    "18", "19", "2", "20", "3", "37", "4", "5", "6", "7",
    "8", "a", "abbaye", "abeille", "abeilles", "abers", "acacias", "agricole", "air", "alpines",
    "amap", "apicole", "apiculteur", "apiculture", "ar", "arc", "armement", "artisanale", "asinerie", "asperges",
    "assiette", "association", "atelier", "ateliers", "au", "auberge", "avenue", "avicole", "b", "baie",
    "balade", "bar", "baraques", "bas", "basque", "basse", "bastide", "bateau", "baume", "beau",
    "bec", "bel", "belette", "belle", "bien", "biere", "bio", "bis", "bisons", "blanc",
    "blanche", "blanches", "blancs", "bleu", "bleue", "bleues", "blé", "bocage", "boeuf", "bois",
    "bon", "bonheur", "bonne", "bons", "borde", "borie", "bosc", "bosquet", "bouche", "boucherie",
    "boulange", "boulevard", "bourg", "bout", "boutique", "bouverie", "brasserie", "brebis", "brie", "brouette",
    "brousse", "brun", "bruyère", "bruyères", "buis", "buisson", "bulles", "buron", "by", "cabane",
    "cabanon", "cabra", "cabras", "cabrettes", "cabri", "cabriolait", "cabrioles", "cabris", "café", "cagouille",
    "cailles", "cal", "camargue", "camp", "campagne", "camping", "campus", "can", "canard", "canards",
    "cap", "caprice", "caprices", "carré", "casse", "cave", "caveau", "caves", "caviar", "cellier",
    "centre", "cerfs", "cest", "chalets", "chambres", "champ", "champignons", "champi", "champs", "chant",
    "chante", "chapelle", "charcuterie", "charme", "charmes", "chaudron", "chaumes", "chemin", "chemins", "chevrerie",
    "chevres", "chevriers", "chez", "chèvre", "chèvrerie", "chèvres", "chêne", "chênes", "cidre", "cidrerie",
    "cie", "ciel", "cinq", "ciron", "citron", "cité", "clairette", "clef", "clos", "clède",
    "clé", "cochon", "cochons", "cocotte", "cocottes", "coeur", "coin", "colline", "collines", "colombier",
    "combe", "combes", "commanderie", "compagnie", "comptoir", "confitures", "conserves", "coopérative", "coquelicots", "coquillages",
    "cote", "coteaux", "coudriers", "cour", "cours", "cressonnieres", "creux", "crinières", "croix", "croquez",
    "cru", "crus", "cueillette", "cultures", "cèdres", "côte", "côteaux", "côté", "d", "dabeilles",
    "dame", "damour", "dangélique", "dans", "de", "deau", "delices", "délices", "direct", "distillerie",
    "dit", "dom", "domaine", "domaines", "dou", "douceurs", "drive", "du", "eaux", "ecole",
    "elevage", "eleveurs", "en", "enclos", "entre", "epi", "escales", "escargot", "escargots", "espace",
    "esplanade", "essarts", "est", "et", "ets", "eurl", "ex", "exploitation", "fage", "famille",
    "farine", "ferme", "fermeauberge", "fermes", "fermette", "fermier", "fermiers", "fermière", "fermières", "figues",
    "fil", "fille", "filles", "fils", "flaguerie", "fleuri", "fleurs", "florale", "foie", "folies",
    "font", "fontaine", "fontaines", "forez", "forges", "forêt", "fourche", "fourchette", "fournil", "frais",
    "fraise", "fraiseraie", "fraises", "framboisier", "france", "fromagerie", "fromages", "fromagère", "fruit", "fruitière",
    "fruits", "fées", "fêtes", "gaec", "garde", "gare", "garenne", "général", "gîte", "gîtes",
    "haie", "halle", "halles", "hameau", "haut", "haute", "hautes", "hauts", "helix", "herbe",
    "herbes", "hirondelles", "hop", "horticole", "horticulteur", "horticulture", "hotel", "houlette", "huile", "huilerie",
    "huiles", "huîtres", "ibis", "ignames", "ile", "impasse", "j", "jardin", "jardins", "jas",
    "la", "labbaye", "labeille", "laborie", "lac", "lacs", "lagneau", "laire", "lairial", "lait",
    "laiterie", "lambroisie", "lan", "lande", "landes", "lapin", "larbre", "las", "lassiette", "latelier",
    "lauberge", "lavandes", "lavandin", "lavoir", "lay", "le", "leau", "lechelle", "lecole", "leglise",
    "lenclos", "les", "lescargot", "lescargotière", "lespérance", "lessenciel", "lessentiel", "lherbier", "lherm", "lhermitage",
    "liberté", "libres", "lieu", "lilas", "lile", "lill", "lilot", "limousin", "limousine", "liouner",
    "livraison", "lo", "local", "locavor", "loges", "logis", "loire", "loiseau", "lomignon", "long",
    "lor", "loriot", "lorme", "lorrain", "lorraine", "lorée", "loup", "lours", "luberon", "lycée",
    "légumes", "létable", "m", "ma", "madame", "magasin", "mail", "maine", "mairie", "maison",
    "maisons", "manade", "manoir", "mané", "maraicher", "maraichère", "marais", "maraîchage", "maraîcher", "maraîchère",
    "marche", "marché", "mare", "marguerite", "marronniers", "mas", "meinau", "mer", "merle", "meslay",
    "mesnil", "meuhg", "meules", "miel", "miellerie", "miels", "mignon", "mille", "millet", "mimosas",
    "minervois", "mirabelle", "mohair", "moi", "mon", "monde", "mont", "montagne", "montagnes", "monts",
    "motte", "moulin", "moulins", "moun", "mouton", "moutons", "moutte", "musée", "myrtille", "métairie",
    "nature", "naturellement", "neuf", "neuve", "noir", "noire", "noisette", "noix", "nord", "normand",
    "normande", "normandes", "normandie", "nos", "nouvelle", "o", "oeufs", "oies", "oliveraie", "oliviers",
    "oléicole", "orchidées", "ouest", "ours", "pages", "paille", "pain", "pains", "palais", "panier",
    "paniers", "papilles", "paradis", "parc", "paris", "parking", "parvis", "pas", "passion", "pastorale",
    "pays", "paysan", "paysanne", "paysannes", "paysans", "pe", "pech", "pepiniere", "pepinieres", "perrière",
    "petit", "petite", "petites", "petits", "pic", "pieds", "pigeonneaux", "pigeonnier", "pigeons", "pin",
    "pis", "pisciculture", "place", "plaine", "plaisance", "plaisirs", "plan", "plantes", "plassons", "plateau",
    "plein", "plessis", "plume", "plumes", "point", "poirier", "pom", "pommeraie", "pommes", "pommier",
    "pont", "porc", "porcs", "port", "portail", "porte", "portes", "possibles", "potager", "potagers",
    "potaverger", "poulailler", "poule", "poules", "poulet", "poulettes", "prade", "prairie", "prairies", "pre",
    "pres", "presbytère", "presquîle", "pressoir", "prieuré", "prim", "producteur", "producteurs", "produits", "provence",
    "pruneau", "pré", "prés", "ptit", "ptite", "ptites", "ptits", "puech", "puy", "pyrénées",
    "pâtes", "pédagogique", "pépinières", "périgord", "pêche", "pêcheurs", "quatre", "querelle", "qui", "racines",
    "ranch", "reines", "relais", "renard", "restaurant", "retrait", "rhuys", "rive", "rivière", "rivières",
    "roc", "roche", "rocher", "roches", "roi", "rose", "roses", "rosier", "rossignol", "rouge",
    "rouges", "route", "ruche", "rucher", "ruchers", "rue", "république", "sa", "sables", "sablons",
    "sabots", "safran", "saison", "saisons", "salers", "salle", "salles", "sauvage", "sauvages", "sauveur",
    "saveur", "saveurs", "savoie", "savonnerie", "scea", "scev", "sel", "selle", "semporte", "sens",
    "serre", "serres", "si", "simples", "snc", "sncf", "social", "soldanelles", "soleil", "sologne",
    "sonnailles", "sorbets", "source", "sources", "sous", "spiruline", "st", "stade", "stand", "sud",
    "sur", "suscinio", "table", "tapiau", "temporaire", "temps", "terferme", "terra", "terre", "terrefort",
    "terres", "terroir", "terroirs", "tilleuls", "tisanes", "tome", "top", "tour", "touraine", "tours",
    "tout", "tradition", "treille", "trois", "truffe", "truite", "truites", "trénube", "tuilerie", "tuileries",
    "ty", "tête", "u", "un", "une", "urbain", "urbaine", "vache", "vaches", "val",
    "vallon", "vallons", "vallée", "vallées", "vanille", "vente", "vents", "verger", "vergers", "vert",
    "verte", "vertes", "verts", "viande", "viandes", "vie", "vieille", "vieux", "vigne", "vigneron",
    "vignerons", "vignes", "vignoble", "vignobles", "villa", "village", "ville", "vin", "vinicole", "vins",
    "vire", "vivier", "viviers", "voie", "volaille", "volailles", "volcans", "vosges", "yves", "z",
    "à", "écoles", "ô"]

/-- initializeLLM of part_002 (also textually present in src/src/index.ts):
when llmMatcher is falsy (undefined or null), attempt to load the pipeline,
assigning the loaded function on success and null on failure; a truthy
matcher is kept. -/
def initializeLLM (e : Env) (st : ModuleState) : ModuleState :=
  match st.llmMatcher with
  | JsLlm.fn => st
  | _ => { st with llmMatcher := if e.pipelineOk then JsLlm.fn else JsLlm.nullv }

/-- initializeCommonNameFilters of part_002: on first call, set
_genericNameWords to the hardcoded list and mark initialization done; later
calls return immediately. -/
def initializeCommonNameFilters (st : ModuleState) : ModuleState :=
  if st.commonNamesInitialized then st
  else { st with genericNameWords := some commonWordsList, commonNamesInitialized := true }

/-- The module state after the two initializer calls at the top of part_002's
getBusinessDetailsFromPlaces. -/
def postInitState (e : Env) (st : ModuleState) : ModuleState :=
  initializeLLM e (initializeCommonNameFilters st)

/-- The per-candidate consultation outcome under a module state: the model is
consulted only when llmMatcher is a loaded function. -/
def stateLlm (e : Env) (st : ModuleState) : String -> String -> Option (Except Unit LlmResult) :=
  fun foundName foundAddress =>
    match st.llmMatcher with
    | JsLlm.fn => some (e.infer foundName foundAddress)
    | _ => none

/-- getBusinessDetailsFromPlaces of part_002: run both initializers (mutating
the module state), then the shared four-query body with the name filter
loaded from _genericNameWords and the model gated on llmMatcher; the call
returns its result together with the module state it leaves behind.
_genericNameWords is always assigned here before isValidMatch reads it. -/
def getBusinessDetailsFromPlaces (e : Env) (businessName address postalCode apiKey : String)
    (st : ModuleState) : Option BusinessDetails × ModuleState :=
  let st2 := postInitState e st
  (getBusinessDetailsCore (Env.places e) (st2.genericNameWords.getD [])
      (stateLlm e st2) businessName address postalCode,
   st2)

end PartTwo

namespace PartOne

/-- normalizeText of part_001: the same accent-strip, punctuation-removal,
lowercase, trim pipeline as the normalize helper of the later revisions. -/
def normalizeText (text : String) : String :=
  normalize text

/-- isNameMatch of part_001: split both normalized names into keywords, count
the search keywords that contain or are contained in some found keyword, and
require that count to reach Math.max(1, searchKeywords.length / 2).  The
comparison is written in the exactly equivalent doubled integer form
(2 * matching >= max 2 length), since length / 2 is an exact double. -/
def isNameMatch (searchName foundName : String) : Bool :=
  let searchKeywords := jsSplitWs (normalizeText searchName)
  let foundKeywords := jsSplitWs (normalizeText foundName)
  let matchingKeywords :=
    (searchKeywords.filter (fun sk =>
      foundKeywords.any (fun fk => strContains fk sk || strContains sk fk))).length
  decide (2 * matchingKeywords ≥ max 2 searchKeywords.length)

/-- The JS \w word-character class used by the boundary assertions of
/(\b\d{5}\b)/. -/
def isWordChar (c : Char) : Bool :=
  ('a' ≤ c && c ≤ 'z') || ('A' ≤ c && c ≤ 'Z') || ('0' ≤ c && c ≤ '9') || c = '_'

/-- Attempt to match \d{5}\b at the head of the list: five digits followed by
the end of the string or a non-word character. -/
def fiveDigitRun : List Char → Option (List Char)
  | d1 :: d2 :: d3 :: d4 :: d5 :: rest =>
    if (d1.isDigit && d2.isDigit && d3.isDigit && d4.isDigit && d5.isDigit) &&
        (match rest with | [] => true | c :: _ => !isWordChar c) then
      some [d1, d2, d3, d4, d5]
    else
      none
  | _ => none

/-- Scan for the leftmost match of /\b\d{5}\b/, carrying the previous
character to decide the leading word boundary. -/
def findPostalAux (prev : Option Char) : List Char → Option (List Char)
  | [] => none
  | c :: rest =>
    match (if (match prev with | none => true | some p => !isWordChar p) then
             fiveDigitRun (c :: rest)
           else none) with
    | some ds => some ds
    | none => findPostalAux (some c) rest

/-- Model of foundAddress.match(/(\b\d{5}\b)/): the first five-digit run
delimited by word boundaries, or the empty string when there is none. -/
def extractPostalCode (s : String) : String :=
  match findPostalAux none s.data with
  | some ds => String.mk ds
  | none => ("")

/-- isAddressMatch of part_001: one normalized address must contain the
other, and the searched postal code must be empty or equal to the
five-digit postal code extracted from the raw found address. -/
def isAddressMatch (searchAddress searchPostalCode foundAddress : String) : Bool :=
  let normalizedSearchAddr := normalizeText searchAddress
  let normalizedFoundAddr := normalizeText foundAddress
  let foundPostalCode := extractPostalCode foundAddress
  let addressContainsSearch := strContains normalizedFoundAddr normalizedSearchAddr ||
    strContains normalizedSearchAddr normalizedFoundAddr
  let postalCodesMatch := decide (searchPostalCode = ("")) || decide (foundPostalCode = searchPostalCode)
  addressContainsSearch && postalCodesMatch

/-- The candidate loop of part_001.  Unlike the later revisions, the
placeDetails call is not wrapped in an inner try/catch, so a thrown details
call aborts the whole function (Except.error), which the outer catch turns
into null.  A candidate is pre-filtered on its brief name and address, the
details record is then re-verified, and the returned record uses the detailed
name and address directly (no fallback to the searched values). -/
def evalCandidates (env : PlacesEnv) (businessName address postalCode : String) :
    List Candidate → Except Unit (Option BusinessDetails)
  | [] => Except.ok none
  | c :: rest =>
    match c.place_id with
    | none => evalCandidates env businessName address postalCode rest
    | some pid =>
      let candidateName := orEmpty c.name
      let candidateAddress := orEmpty c.formatted_address
      if !(isNameMatch businessName candidateName) && !(isAddressMatch address postalCode candidateAddress) then
        evalCandidates env businessName address postalCode rest
      else
        match env.details pid with
        | DetailsOutcome.throws => Except.error ()
        | DetailsOutcome.ok none => evalCandidates env businessName address postalCode rest
        | DetailsOutcome.ok (some r) =>
          let finalName := orEmpty r.name
          let finalAddress := orEmpty r.formatted_address
          if isNameMatch businessName finalName || isAddressMatch address postalCode finalAddress then
            Except.ok (some
              { nom := finalName
                adresse := finalAddress
                phone := r.international_phone_number
                website := r.website
                openingHours := r.opening_hours.bind OpeningHours.weekday_text
                rating := r.rating
                reviewCount := r.user_ratings_total
                googleMapsUrl := r.url
                placeId := some pid
                geolocalisation := (r.geometry.bind Geometry.location).map
                  (fun loc => { lat := loc.lat, lon := loc.lng }) })
          else
            evalCandidates env businessName address postalCode rest

/-- getBusinessDetailsFromPlaces of part_001 (the two-query revision): search
with name-address-postal; when that yields no candidates, search once more
with name-postal; there is no inner try/catch, so a thrown search or details
call reaches the outer catch and the function returns null. -/
def getBusinessDetailsFromPlaces (env : PlacesEnv) (businessName address postalCode apiKey : String) :
    Option BusinessDetails :=
  match env.search (businessName ++ (", ") ++ address ++ (", ") ++ postalCode) with
  | SearchOutcome.throws => none
  | SearchOutcome.ok first =>
    let second : Except Unit (Option (List Candidate)) :=
      if (match first with | none => true | some cs => cs.isEmpty) then
        match env.search (businessName ++ (", ") ++ postalCode) with
        | SearchOutcome.throws => Except.error ()
        | SearchOutcome.ok cs => Except.ok cs
      else Except.ok first
    match second with
    | Except.error _ => none
    | Except.ok none => none
    | Except.ok (some cs) =>
      if cs.isEmpty then none
      else
        match evalCandidates env businessName address postalCode cs with
        | Except.error _ => none
        | Except.ok r => r

end PartOne

namespace Server

/-- The destructured request body of the POST /api/business-details handler;
each field may be absent. -/
structure RequestBody where
  name : Option String
  address : Option String
  postalCode : Option String
deriving DecidableEq

/-- The body of an HTTP response: an error object or a BusinessDetails
record serialized as JSON. -/
inductive ResponseBody where
  | errorBody (msg : String)
  | detailsBody (bd : BusinessDetails)
deriving DecidableEq

/-- An HTTP response: status code and body (res.json without an explicit
status sends 200). -/
structure Response where
  status : Nat
  body : ResponseBody
deriving DecidableEq

/-- JS falsiness of an optional string request field: absent or empty. -/
def jsFalsy : Option String → Bool
  | none => true
  | some s => decide (s = (""))

/-- The POST /api/business-details handler of src/src/server.ts: 400 when
name, address or postalCode is falsy; 500 when GOOGLE_PLACES_API_KEY is
falsy; then the lookup call, whose thrown error gives 500, null result 404,
and record 200 with the record as JSON. -/
def handleBusinessDetails (apiKey : Option String) (req : RequestBody)
    (lookup : String → String → String → String → Except Unit (Option BusinessDetails)) : Response :=
  if jsFalsy req.name || jsFalsy req.address || jsFalsy req.postalCode then
    { status := 400, body := ResponseBody.errorBody ("Missing required parameters: name, address, or postalCode.") }
  else if jsFalsy apiKey then
    { status := 500, body := ResponseBody.errorBody ("Server configuration error: Google API Key missing.") }
  else
    match lookup (orEmpty req.name) (orEmpty req.address) (orEmpty req.postalCode) (orEmpty apiKey) with
    | Except.error _ => { status := 500, body := ResponseBody.errorBody ("Internal server error.") }
    | Except.ok (some details) => { status := 200, body := ResponseBody.detailsBody details }
    | Except.ok none => { status := 404, body := ResponseBody.errorBody ("Business details not found for the provided information.") }

end Server

/-- A concrete candidate used by the witness environments. -/
def candWit : Candidate :=
  { place_id := some ("pid1"), name := some ("louvre"), formatted_address := some ("rivoli 75001") }

/-- A concrete details result used by the witness environments. -/
def resWit : PlaceResult :=
  { name := some ("louvre"), formatted_address := some ("rivoli 75001 paris"),
    international_phone_number := none, website := none, opening_hours := none,
    rating := none, user_ratings_total := none, url := none, geometry := none }

/-- A concrete environment for the multi-candidate revision in which the
first query yields one candidate whose details pass the matcher. -/
def envWitC1 : Env :=
  { search := fun q => if q = ("louvre, rivoli, 75001") then SearchOutcome.ok (some [candWit])
      else SearchOutcome.ok none,
    details := fun pid => if pid = ("pid1") then DetailsOutcome.ok (some resWit)
      else DetailsOutcome.ok none,
    llm := none }

/-- The record the multi-candidate revision returns under envWitC1. -/
def bdWitC1 : BusinessDetails := mkBusinessDetails ("louvre") ("rivoli") ("pid1") resWit

/-- A concrete places environment whose first query throws and whose later
queries yield a candidate. -/
def peWitC3 : PlacesEnv :=
  { search := fun q => if q = ("q1") then SearchOutcome.throws else SearchOutcome.ok (some [candWit]),
    details := fun _ => DetailsOutcome.ok none }

/-- A concrete places environment in which every call throws. -/
def peWitC8 : PlacesEnv :=
  { search := fun _ => SearchOutcome.throws, details := fun _ => DetailsOutcome.throws }

/-- A candidate with a place id, for the details-throw witness. -/
def candWitC8 : Candidate :=
  { place_id := some ("pidX"), name := none, formatted_address := none }

/-- A concrete environment for part_002 in which the places client finds
nothing and the pipeline load fails. -/
def envWitC7 : PartTwo.Env :=
  { search := fun _ => SearchOutcome.ok none, details := fun _ => DetailsOutcome.ok none,
    pipelineOk := false, infer := fun _ _ => Except.error () }

/-- The candidate of the part_001 counterexample environments. -/
def candWitP1 : Candidate :=
  { place_id := some ("pidB"), name := some ("Bistro"), formatted_address := some ("Foo 1, 75001 Ville") }

/-- The details result of the part_001 counterexample environments. -/
def resWitP1 : PlaceResult :=
  { name := some ("Bistro"), formatted_address := some ("Foo 1, 75001 Ville"),
    international_phone_number := none, website := none, opening_hours := none,
    rating := none, user_ratings_total := none, url := none, geometry := none }

/-- part_001 environment: the first query variant throws; the second yields a
fully matching candidate. -/
def peWitP1throw : PlacesEnv :=
  { search := fun q => if q = ("Bistro, Foo, 75001") then SearchOutcome.throws
      else SearchOutcome.ok (some [candWitP1]),
    details := fun pid => if pid = ("pidB") then DetailsOutcome.ok (some resWitP1)
      else DetailsOutcome.ok none }

/-- The same environment except that the first query variant returns an empty
response instead of throwing. -/
def peWitP1empty : PlacesEnv :=
  { search := fun q => if q = ("Bistro, Foo, 75001") then SearchOutcome.ok none
      else SearchOutcome.ok (some [candWitP1]),
    details := fun pid => if pid = ("pidB") then DetailsOutcome.ok (some resWitP1)
      else DetailsOutcome.ok none }

/-- The record part_001 returns under peWitP1empty. -/
def bdWitP1 : BusinessDetails :=
  { nom := ("Bistro"), adresse := ("Foo 1, 75001 Ville"), phone := none, website := none,
    openingHours := none, rating := none, reviewCount := none, googleMapsUrl := none,
    placeId := some ("pidB"), geolocalisation := none }

/-- A model answer accepted by the tie-break: affirmative label, score 1. -/
def llmOkWit : Option (Except Unit LlmResult) :=
  some (Except.ok { label := ("Yes!"), score := (1 : ℚ) })

theorem jsOrOne_pos (n : ℕ) : 0 < jsOrOne n := by
  unfold jsOrOne
  split <;> omega

theorem half_le_div_iff (i m : ℕ) (hm : 0 < m) :
    ((0.5 : ℚ) ≤ (i : ℚ) / (m : ℚ)) ↔ m ≤ 2 * i := by
  have hm' : (0 : ℚ) < (m : ℚ) := by exact_mod_cast hm
  rw [le_div_iff₀ hm']
  constructor
  · intro h
    have h' : (m : ℚ) ≤ 2 * (i : ℚ) := by linarith
    exact_mod_cast h'
  · intro h
    have h' : (m : ℚ) ≤ 2 * (i : ℚ) := by exact_mod_cast h
    linarith

theorem threeTenths_le_div_iff (i m : ℕ) (hm : 0 < m) :
    ((0.3 : ℚ) ≤ (i : ℚ) / (m : ℚ)) ↔ 3 * m ≤ 10 * i := by
  have hm' : (0 : ℚ) < (m : ℚ) := by exact_mod_cast hm
  rw [le_div_iff₀ hm']
  constructor
  · intro h
    have h' : 3 * (m : ℚ) ≤ 10 * (i : ℚ) := by linarith
    exact_mod_cast h'
  · intro h
    have h' : 3 * (m : ℚ) ≤ 10 * (i : ℚ) := by exact_mod_cast h
    linarith

/-- The executable strong-name-match test of this embedding is exactly the
source's comparison nameOverlapRatio >= 0.5. -/
theorem strongNameMatch_spec (nameFilter : List String) (searchName foundName : String) :
    strongNameMatch nameFilter searchName foundName = true ↔
      (0.5 : ℚ) ≤ nameOverlapRatio nameFilter searchName foundName := by
  have hpos : 0 < max (jsOrOne (nameWords nameFilter searchName).length)
      (jsOrOne (nameWords nameFilter foundName).length) :=
    lt_of_lt_of_le (jsOrOne_pos _) (le_max_left _ _)
  unfold strongNameMatch nameOverlapRatio
  rw [decide_eq_true_eq]
  exact (half_le_div_iff _ _ hpos).symm

/-- The executable address-overlap test of this embedding is exactly the
source's conjunction of a nonempty intersection and addrOverlapRatio >= 0.3. -/
theorem basicAddrWordOverlap_spec (searchAddress foundAddress : String) :
    basicAddrWordOverlap searchAddress foundAddress = true ↔
      (0 < (addrWordIntersections searchAddress foundAddress).length ∧
       (0.3 : ℚ) ≤ addrOverlapRatio searchAddress foundAddress) := by
  have hpos : 0 < min (jsOrOne (addrWords searchAddress).length)
      (jsOrOne (addrWords foundAddress).length) :=
    lt_min (jsOrOne_pos _) (jsOrOne_pos _)
  unfold basicAddrWordOverlap addrOverlapRatio
  rw [Bool.and_eq_true, decide_eq_true_eq, decide_eq_true_eq]
  constructor
  · intro h
    exact ⟨h.1, (threeTenths_le_div_iff _ _ hpos).mpr h.2⟩
  · intro h
    exact ⟨h.1, (threeTenths_le_div_iff _ _ hpos).mp h.2⟩

theorem score_cross_iff (q : ℚ) : (85 * (q.den : ℤ) < q.num * 100) ↔ (0.85 : ℚ) < q := by
  have h85 : (0.85 : ℚ) = 17 / 20 := by norm_num
  have hden : (0 : ℚ) < (q.den : ℚ) := by exact_mod_cast q.den_pos
  constructor
  · intro h
    have h' : (17 : ℚ) / 20 < (q.num : ℚ) / (q.den : ℚ) := by
      rw [div_lt_div_iff₀ (by norm_num) hden]
      have hz : (17 : ℤ) * q.den < q.num * 20 := by omega
      exact_mod_cast hz
    rw [h85]
    calc (17 : ℚ) / 20 < (q.num : ℚ) / (q.den : ℚ) := h'
      _ = q := Rat.num_div_den q
  · intro h
    rw [h85] at h
    have h' : (17 : ℚ) / 20 < (q.num : ℚ) / (q.den : ℚ) := by
      rw [Rat.num_div_den q]
      exact h
    rw [div_lt_div_iff₀ (by norm_num) hden] at h'
    have hz : (17 : ℤ) * q.den < q.num * 20 := by exact_mod_cast h'
    omega

/-- The executable score test of this embedding is exactly the source's
comparison score > 0.85. -/
theorem llmDecision_spec (r : LlmResult) :
    llmDecision (some (Except.ok r)) =
      (strContains (jsToUpper r.label) ("YES") && decide ((0.85 : ℚ) < r.score)) := by
  simp only [llmDecision]
  congr 1
  exact decide_eq_decide.mpr (score_cross_iff r.score)

theorem containsChars_nil (hay : List Char) : containsChars [] hay = true := by
  cases hay <;> simp [containsChars, startsWithChars]

theorem strContains_empty_needle (hay : String) : strContains hay ("") = true :=
  containsChars_nil hay.data

/-- C2: isValidMatch returns false for every input in which the found
formatted address does not contain the searched postal code as a substring;
the gate is evaluated before any name or address token comparison, so the
result is false whatever the word heuristics and the model would say. -/
theorem claim_C2_postal_gate (nameFilter : List String) (llmAns : Option (Except Unit LlmResult))
    (searchName searchAddress searchPostalCode foundName foundAddress : String)
    (h : strContains foundAddress searchPostalCode = false) :
    isValidMatchG nameFilter llmAns searchName searchAddress searchPostalCode foundName foundAddress = false := by
  unfold isValidMatchG
  rw [h]
  simp

theorem claim_C2_witness :
    strContains ("12 Rue de Rivoli, Paris, France") ("75001") = false ∧
    isValidMatchG commonNameWordsToFilter llmOkWit ("louvre") ("rivoli") ("75001") ("louvre")
      ("12 Rue de Rivoli, Paris, France") = false :=
  ⟨by decide, claim_C2_postal_gate commonNameWordsToFilter llmOkWit ("louvre") ("rivoli") ("75001")
    ("louvre") ("12 Rue de Rivoli, Paris, France") (by decide)⟩

/-- C4: the strong name match of isValidMatch holds exactly when the name
word-overlap ratio is at least 0.5, where the ratio divides the count of
shared words by the larger of the two word-list lengths (each replaced by 1
when zero), and the word lists keep only the words of the accent-stripped,
punctuation-removed, lowercased names that are longer than 2 characters and
not in the generic-word filter list. -/
theorem claim_C4_strong_name_match (nameFilter : List String) (searchName foundName : String) :
    (strongNameMatch nameFilter searchName foundName = true ↔
      (0.5 : ℚ) ≤ nameOverlapRatio nameFilter searchName foundName) ∧
    nameOverlapRatio nameFilter searchName foundName =
      ((nameWordIntersections nameFilter searchName foundName).length : ℚ) /
        ((max (jsOrOne (nameWords nameFilter searchName).length)
              (jsOrOne (nameWords nameFilter foundName).length) : ℕ) : ℚ) ∧
    nameWordIntersections nameFilter searchName foundName =
      (nameWords nameFilter searchName).filter (fun w => (nameWords nameFilter foundName).contains w) ∧
    nameWords nameFilter searchName =
      (jsSplitWs (normalize searchName)).filter
        (fun w => decide (w.length > 2) && !(nameFilter.contains w)) :=
  ⟨strongNameMatch_spec nameFilter searchName foundName, rfl, rfl, rfl⟩

/-- C9: the secondary rule of isValidMatch is redundant: past the postal-code
gate the containment is already known true, so the primary rule fires
whenever the strong name match holds, and isValidMatch is extensionally equal
to the simplified matcher with the secondary rule removed. -/
theorem claim_C9_secondary_rule_redundant (nameFilter : List String)
    (llmAns : Option (Except Unit LlmResult))
    (searchName searchAddress searchPostalCode foundName foundAddress : String) :
    isValidMatchG nameFilter llmAns searchName searchAddress searchPostalCode foundName foundAddress =
      isValidMatchNoSecondaryRule nameFilter llmAns searchName searchAddress searchPostalCode foundName foundAddress := by
  unfold isValidMatchG isValidMatchNoSecondaryRule isValidMatchCore
  cases hg : strContains foundAddress searchPostalCode
  · simp
  · cases ha : strongNameMatch nameFilter searchName foundName <;> simp

/-- C10: with an empty searched postal code the containment gate passes for
every found address (every string contains the empty substring), so the
result of isValidMatch is exactly the result of the post-gate heuristics; an
empty search postal code never by itself rejects a candidate. -/
theorem claim_C10_empty_postal :
    (∀ foundAddress : String, strContains foundAddress ("") = true) ∧
    ∀ (nameFilter : List String) (llmAns : Option (Except Unit LlmResult))
      (searchName searchAddress foundName foundAddress : String),
      isValidMatchG nameFilter llmAns searchName searchAddress ("") foundName foundAddress =
        isValidMatchCore nameFilter llmAns searchName searchAddress ("") foundName foundAddress := by
  constructor
  · exact strContains_empty_needle
  · intro nameFilter llmAns searchName searchAddress foundName foundAddress
    unfold isValidMatchG
    rw [strContains_empty_needle]
    simp

/-- C5: the text-classification model is consulted only when neither the
primary nor the secondary rule has accepted and there is at least one shared
name word, a basic address word overlap, or the found address contains the
primary search street word (llmConsultCondition); outside that situation the
result does not depend on the model at all; inside it, a returned record is
accepted exactly when its uppercased label contains YES and its score exceeds
0.85, and an uninitialized model or a thrown inference rejects. -/
theorem claim_C5_llm_tiebreak (nameFilter : List String)
    (searchName searchAddress searchPostalCode foundName foundAddress : String) :
    (¬ llmConsultCondition nameFilter searchName searchAddress searchPostalCode foundName foundAddress →
      ∀ llm1 llm2 : Option (Except Unit LlmResult),
        isValidMatchG nameFilter llm1 searchName searchAddress searchPostalCode foundName foundAddress =
          isValidMatchG nameFilter llm2 searchName searchAddress searchPostalCode foundName foundAddress) ∧
    (llmConsultCondition nameFilter searchName searchAddress searchPostalCode foundName foundAddress →
      (∀ r : LlmResult,
        isValidMatchG nameFilter (some (Except.ok r)) searchName searchAddress searchPostalCode foundName foundAddress =
          (strContains (jsToUpper r.label) ("YES") && decide ((0.85 : ℚ) < r.score))) ∧
      isValidMatchG nameFilter none searchName searchAddress searchPostalCode foundName foundAddress = false ∧
      (∀ e : Unit,
        isValidMatchG nameFilter (some (Except.error e)) searchName searchAddress searchPostalCode foundName foundAddress = false)) := by
  unfold llmConsultCondition isValidMatchG isValidMatchCore
  generalize strContains foundAddress searchPostalCode = G
  generalize strongNameMatch nameFilter searchName foundName = A
  generalize basicAddrWordOverlap searchAddress foundAddress = HB
  generalize addressContainsSearchStreet searchAddress foundAddress = HC
  generalize decide ((nameWordIntersections nameFilter searchName foundName).length > 0) = I
  cases G <;> cases A <;> cases HB <;> cases HC <;> cases I <;> simp [llmDecision]
  all_goals
    intro r
    congr 1
    exact decide_eq_decide.mpr (score_cross_iff r.score)

theorem claim_C5_witness :
    llmConsultCondition commonNameWordsToFilter ("alpha beta gamma") ("qqqq") ("75001")
      ("alpha delta epsilon") ("rue qqqq 75001") ∧
    isValidMatchG commonNameWordsToFilter llmOkWit ("alpha beta gamma") ("qqqq") ("75001")
      ("alpha delta epsilon") ("rue qqqq 75001") = true := by
  have hc : llmConsultCondition commonNameWordsToFilter ("alpha beta gamma") ("qqqq") ("75001")
      ("alpha delta epsilon") ("rue qqqq 75001") := by
    unfold llmConsultCondition
    exact ⟨by decide, by decide, by decide, by decide⟩
  refine ⟨hc, ?_⟩
  have h := ((claim_C5_llm_tiebreak commonNameWordsToFilter ("alpha beta gamma") ("qqqq") ("75001")
      ("alpha delta epsilon") ("rue qqqq 75001")).2 hc).1 { label := ("Yes!"), score := (1 : ℚ) }
  have hlt : (0.85 : ℚ) < (1 : ℚ) := (score_cross_iff (1 : ℚ)).mp (by decide)
  have hfin : (strContains (jsToUpper ("Yes!")) ("YES") && decide ((0.85 : ℚ) < (1 : ℚ))) = true := by
    rw [decide_eq_true hlt]
    decide
  exact h.trans hfin

/-- C8: getBusinessDetailsFromPlaces never rejects: the result is always null
or a record; a thrown findPlaceFromText call is caught and skips to the next
query; a thrown placeDetails call (or a candidate without a place id) is
caught and skips to the next candidate; a thrown model inference inside
isValidMatch is caught and behaves exactly like an uninitialized model. -/
theorem claim_C8_never_rejects :
    (∀ (env : Env) (businessName address postalCode apiKey : String),
       getBusinessDetailsFromPlaces env businessName address postalCode apiKey = none ∨
       ∃ bd, getBusinessDetailsFromPlaces env businessName address postalCode apiKey = some bd) ∧
    (∀ (pe : PlacesEnv) (q : String) (qs : List String),
       pe.search q = SearchOutcome.throws → runQueries pe (q :: qs) = runQueries pe qs) ∧
    (∀ (pe : PlacesEnv) (nameFilter : List String)
       (llm : String → String → Option (Except Unit LlmResult))
       (businessName address postalCode : String) (c : Candidate) (rest : List Candidate),
       (∀ pid, c.place_id = some pid → pe.details pid = DetailsOutcome.throws) →
       evalCandidates pe nameFilter llm businessName address postalCode (c :: rest) =
         evalCandidates pe nameFilter llm businessName address postalCode rest) ∧
    (∀ (nameFilter : List String) (e : Unit)
       (searchName searchAddress searchPostalCode foundName foundAddress : String),
       isValidMatchG nameFilter (some (Except.error e)) searchName searchAddress searchPostalCode foundName foundAddress =
         isValidMatchG nameFilter none searchName searchAddress searchPostalCode foundName foundAddress) := by
  refine ⟨?_, ?_, ?_, ?_⟩
  · intro env businessName address postalCode apiKey
    cases h : getBusinessDetailsFromPlaces env businessName address postalCode apiKey with
    | none => exact Or.inl rfl
    | some bd => exact Or.inr ⟨bd, rfl⟩
  · intro pe q qs h
    simp [runQueries, h]
  · intro pe nameFilter llm businessName address postalCode c rest h
    cases hp : c.place_id with
    | none => simp [evalCandidates, hp]
    | some pid => simp [evalCandidates, hp, h pid hp]
  · intro nameFilter e searchName searchAddress searchPostalCode foundName foundAddress
    unfold isValidMatchG isValidMatchCore
    simp [llmDecision]

theorem claim_C8_witness :
    runQueries peWitC8 ([("a"), ("b")]) = runQueries peWitC8 [("b")] ∧
    evalCandidates peWitC8 [] (fun _ _ => none) ("n") ("a") ("p") [candWitC8] =
      evalCandidates peWitC8 [] (fun _ _ => none) ("n") ("a") ("p") [] :=
  ⟨claim_C8_never_rejects.2.1 peWitC8 ("a") [("b")] rfl,
   claim_C8_never_rejects.2.2.1 peWitC8 [] (fun _ _ => none) ("n") ("a") ("p") candWitC8 []
     (fun _ _ => rfl)⟩

/-- C3 (amended to the four-query revisions): queries are issued in the fixed
fallback order name-address-postal, name-postal, name-address, bare name; a
thrown query, an absent candidates field and an empty array each skip to the
next variant; the first nonempty candidate list is adopted and the remaining
queries are skipped; when every query yields no candidates the function
returns null.  The two-query revision part_001 does not satisfy the original
claim: see the counterexample. -/
theorem claim_C3_query_fallback :
    (∀ businessName address postalCode : String,
       queries businessName address postalCode =
         [businessName ++ (", ") ++ address ++ (", ") ++ postalCode,
          businessName ++ (", ") ++ postalCode,
          businessName ++ (", ") ++ address,
          businessName]) ∧
    (∀ (pe : PlacesEnv) (q : String) (qs : List String),
       pe.search q = SearchOutcome.throws → runQueries pe (q :: qs) = runQueries pe qs) ∧
    (∀ (pe : PlacesEnv) (q : String) (qs : List String),
       pe.search q = SearchOutcome.ok none → runQueries pe (q :: qs) = runQueries pe qs) ∧
    (∀ (pe : PlacesEnv) (q : String) (qs : List String),
       pe.search q = SearchOutcome.ok (some []) → runQueries pe (q :: qs) = runQueries pe qs) ∧
    (∀ (pe : PlacesEnv) (q : String) (qs : List String) (cs : List Candidate),
       pe.search q = SearchOutcome.ok (some cs) → cs ≠ [] → runQueries pe (q :: qs) = cs) ∧
    (∀ (env : Env) (businessName address postalCode apiKey : String),
       runQueries env.toPlacesEnv (queries businessName address postalCode) = [] →
       getBusinessDetailsFromPlaces env businessName address postalCode apiKey = none) := by
  refine ⟨fun _ _ _ => rfl, ?_, ?_, ?_, ?_, ?_⟩
  · intro pe q qs h
    simp [runQueries, h]
  · intro pe q qs h
    simp [runQueries, h]
  · intro pe q qs h
    simp [runQueries, h]
  · intro pe q qs cs h hne
    simp [runQueries, h, hne]
  · intro env businessName address postalCode apiKey h
    unfold getBusinessDetailsFromPlaces getBusinessDetailsCore
    rw [h]
    simp

theorem claim_C3_witness :
    runQueries peWitC3 ([("q1"), ("q2")]) = [candWit] := by
  have h1 := claim_C3_query_fallback.2.1 peWitC3 ("q1") [("q2")] rfl
  have h2 := claim_C3_query_fallback.2.2.2.2.1 peWitC3 ("q2") [] [candWit] rfl (by simp)
  exact h1.trans h2

/-- C3 counterexample: part_001 is a multi-query revision (it falls back from
name-address-postal to name-postal), but a first query whose call throws is
not skipped: under peWitP1throw the function returns null, while under the
otherwise identical peWitP1empty (the first query merely empty instead of
throwing) the same inputs produce a full record from the second query. -/
theorem claim_C3_counterexample :
    PartOne.getBusinessDetailsFromPlaces peWitP1throw ("Bistro") ("Foo") ("75001") ("k") = none ∧
    PartOne.getBusinessDetailsFromPlaces peWitP1empty ("Bistro") ("Foo") ("75001") ("k") = some bdWitP1 :=
  ⟨by decide, by decide⟩

theorem evalCandidates_eq_some (pe : PlacesEnv) (nameFilter : List String)
    (llm : String → String → Option (Except Unit LlmResult))
    (businessName address postalCode : String) (cs : List Candidate) :
    ∀ bd, evalCandidates pe nameFilter llm businessName address postalCode cs = some bd →
      ∃ c ∈ cs, ∃ pid r, c.place_id = some pid ∧ pe.details pid = DetailsOutcome.ok (some r) ∧
        isValidMatchG nameFilter (llm (orEmpty r.name) (orEmpty r.formatted_address))
          businessName address postalCode (orEmpty r.name) (orEmpty r.formatted_address) = true ∧
        bd = mkBusinessDetails businessName address pid r := by
  induction cs with
  | nil =>
    intro bd h
    simp [evalCandidates] at h
  | cons c rest ih =>
    intro bd h
    unfold evalCandidates at h
    cases hp : c.place_id with
    | none =>
      rw [hp] at h
      simp only [] at h
      obtain ⟨c2, hmem, hrest⟩ := ih bd h
      exact ⟨c2, List.mem_cons_of_mem _ hmem, hrest⟩
    | some pid =>
      rw [hp] at h
      simp only [] at h
      cases hd : pe.details pid with
      | throws =>
        rw [hd] at h
        simp only [] at h
        obtain ⟨c2, hmem, hrest⟩ := ih bd h
        exact ⟨c2, List.mem_cons_of_mem _ hmem, hrest⟩
      | ok orr =>
        cases orr with
        | none =>
          rw [hd] at h
          simp only [] at h
          obtain ⟨c2, hmem, hrest⟩ := ih bd h
          exact ⟨c2, List.mem_cons_of_mem _ hmem, hrest⟩
        | some r =>
          rw [hd] at h
          simp only [] at h
          by_cases hv : isValidMatchG nameFilter (llm (orEmpty r.name) (orEmpty r.formatted_address))
              businessName address postalCode (orEmpty r.name) (orEmpty r.formatted_address) = true
          · rw [if_pos hv] at h
            exact ⟨c, List.mem_cons_self c rest, pid, r, hp, hd, hv, (Option.some.inj h).symm⟩
          · rw [if_neg hv] at h
            obtain ⟨c2, hmem, hrest⟩ := ih bd h
            exact ⟨c2, List.mem_cons_of_mem _ hmem, hrest⟩

theorem evalCandidates_eq_none (pe : PlacesEnv) (nameFilter : List String)
    (llm : String → String → Option (Except Unit LlmResult))
    (businessName address postalCode : String) (cs : List Candidate) :
    (∀ c ∈ cs, ¬ candidatePasses pe nameFilter llm businessName address postalCode c) →
    evalCandidates pe nameFilter llm businessName address postalCode cs = none := by
  induction cs with
  | nil =>
    intro _
    simp [evalCandidates]
  | cons c rest ih =>
    intro h
    have hrest := ih (fun c2 hc2 => h c2 (List.mem_cons_of_mem _ hc2))
    unfold evalCandidates
    cases hp : c.place_id with
    | none =>
      simp only []
      exact hrest
    | some pid =>
      simp only []
      cases hd : pe.details pid with
      | throws =>
        simp only []
        exact hrest
      | ok orr =>
        cases orr with
        | none =>
          simp only []
          exact hrest
        | some r =>
          simp only []
          have hv : ¬ (isValidMatchG nameFilter (llm (orEmpty r.name) (orEmpty r.formatted_address))
              businessName address postalCode (orEmpty r.name) (orEmpty r.formatted_address) = true) := by
            intro hv
            exact h c (List.mem_cons_self c rest) ⟨pid, r, hp, hd, hv⟩
          rw [if_neg hv]
          exact hrest

/-- C1: whenever a run of the multi-candidate revision returns a record,
some candidate of the adopted candidate list has a place id whose details
result passed isValidMatch (applied to the detailed name and formatted
address), and every field of the returned record is the corresponding
normalized detail of that result; and when no candidate passes, the function
returns null. -/
theorem claim_C1_return_shape (env : Env) (businessName address postalCode apiKey : String) :
    (∀ bd, getBusinessDetailsFromPlaces env businessName address postalCode apiKey = some bd →
      ∃ c ∈ runQueries env.toPlacesEnv (queries businessName address postalCode),
        ∃ pid r, c.place_id = some pid ∧ env.details pid = DetailsOutcome.ok (some r) ∧
          isValidMatchG commonNameWordsToFilter (envLlm env (orEmpty r.name) (orEmpty r.formatted_address))
            businessName address postalCode (orEmpty r.name) (orEmpty r.formatted_address) = true ∧
          bd.nom = jsOrStr r.name businessName ∧
          bd.adresse = jsOrStr r.formatted_address address ∧
          bd.phone = r.international_phone_number ∧
          bd.website = r.website ∧
          bd.openingHours = r.opening_hours.bind OpeningHours.weekday_text ∧
          bd.rating = r.rating ∧
          bd.reviewCount = r.user_ratings_total ∧
          bd.googleMapsUrl = r.url ∧
          bd.placeId = some pid ∧
          bd.geolocalisation = (r.geometry.bind Geometry.location).map
            (fun loc => { lat := loc.lat, lon := loc.lng })) ∧
    ((∀ c ∈ runQueries env.toPlacesEnv (queries businessName address postalCode),
        ¬ candidatePasses env.toPlacesEnv commonNameWordsToFilter (envLlm env)
            businessName address postalCode c) →
      getBusinessDetailsFromPlaces env businessName address postalCode apiKey = none) := by
  constructor
  · intro bd h
    simp only [getBusinessDetailsFromPlaces, getBusinessDetailsCore] at h
    cases he : (runQueries env.toPlacesEnv (queries businessName address postalCode)).isEmpty
    · rw [he] at h
      simp only [Bool.false_eq_true, if_false] at h
      obtain ⟨c, hmem, pid, r, hp, hd, hv, hbd⟩ :=
        evalCandidates_eq_some env.toPlacesEnv commonNameWordsToFilter (envLlm env)
          businessName address postalCode _ bd h
      subst hbd
      exact ⟨c, hmem, pid, r, hp, hd, hv, rfl, rfl, rfl, rfl, rfl, rfl, rfl, rfl, rfl, rfl⟩
    · rw [he] at h
      simp at h
  · intro hall
    simp only [getBusinessDetailsFromPlaces, getBusinessDetailsCore]
    cases he : (runQueries env.toPlacesEnv (queries businessName address postalCode)).isEmpty
    · simp only [Bool.false_eq_true, if_false]
      exact evalCandidates_eq_none env.toPlacesEnv commonNameWordsToFilter (envLlm env)
        businessName address postalCode _ hall
    · simp

theorem claim_C1_witness :
    ∃ c ∈ runQueries envWitC1.toPlacesEnv (queries ("louvre") ("rivoli") ("75001")),
      ∃ pid r, c.place_id = some pid ∧ envWitC1.details pid = DetailsOutcome.ok (some r) ∧
        isValidMatchG commonNameWordsToFilter (envLlm envWitC1 (orEmpty r.name) (orEmpty r.formatted_address))
          ("louvre") ("rivoli") ("75001") (orEmpty r.name) (orEmpty r.formatted_address) = true ∧
        bdWitC1.nom = jsOrStr r.name ("louvre") ∧
        bdWitC1.adresse = jsOrStr r.formatted_address ("rivoli") ∧
        bdWitC1.phone = r.international_phone_number ∧
        bdWitC1.website = r.website ∧
        bdWitC1.openingHours = r.opening_hours.bind OpeningHours.weekday_text ∧
        bdWitC1.rating = r.rating ∧
        bdWitC1.reviewCount = r.user_ratings_total ∧
        bdWitC1.googleMapsUrl = r.url ∧
        bdWitC1.placeId = some pid ∧
        bdWitC1.geolocalisation = (r.geometry.bind Geometry.location).map
          (fun loc => { lat := loc.lat, lon := loc.lng }) :=
  (claim_C1_return_shape envWitC1 ("louvre") ("rivoli") ("75001") ("key")).1 bdWitC1 (by decide)

/-- C6: the POST /api/business-details handler responds 400 when name,
address or postalCode is missing from the body; otherwise 500 when the
Google API key is not configured or the lookup call throws; 404 when the
lookup returns null; and 200 with the record as JSON when it returns a
record. -/
theorem claim_C6_endpoint (apiKey : Option String) (req : Server.RequestBody)
    (lookup : String → String → String → String → Except Unit (Option BusinessDetails)) :
    ((req.name = none ∨ req.address = none ∨ req.postalCode = none) →
      (Server.handleBusinessDetails apiKey req lookup).status = 400 ∧
      ∃ msg, (Server.handleBusinessDetails apiKey req lookup).body = Server.ResponseBody.errorBody msg) ∧
    (Server.jsFalsy req.name = false → Server.jsFalsy req.address = false →
     Server.jsFalsy req.postalCode = false →
      ((apiKey = none → (Server.handleBusinessDetails apiKey req lookup).status = 500) ∧
       (Server.jsFalsy apiKey = false →
        ((∀ e, lookup (orEmpty req.name) (orEmpty req.address) (orEmpty req.postalCode) (orEmpty apiKey) =
             Except.error e →
           (Server.handleBusinessDetails apiKey req lookup).status = 500) ∧
         (lookup (orEmpty req.name) (orEmpty req.address) (orEmpty req.postalCode) (orEmpty apiKey) =
             Except.ok none →
           (Server.handleBusinessDetails apiKey req lookup).status = 404 ∧
           ∃ msg, (Server.handleBusinessDetails apiKey req lookup).body = Server.ResponseBody.errorBody msg) ∧
         (∀ bd, lookup (orEmpty req.name) (orEmpty req.address) (orEmpty req.postalCode) (orEmpty apiKey) =
             Except.ok (some bd) →
           Server.handleBusinessDetails apiKey req lookup =
             { status := 200, body := Server.ResponseBody.detailsBody bd }))))) := by
  constructor
  · intro hmiss
    have hfal : (Server.jsFalsy req.name || Server.jsFalsy req.address || Server.jsFalsy req.postalCode) = true := by
      rcases hmiss with h | h | h <;> simp [Server.jsFalsy, h]
    constructor
    · simp [Server.handleBusinessDetails, hfal]
    · exact ⟨("Missing required parameters: name, address, or postalCode."),
        by simp [Server.handleBusinessDetails, hfal]⟩
  · intro h1 h2 h3
    have hfal : (Server.jsFalsy req.name || Server.jsFalsy req.address || Server.jsFalsy req.postalCode) = false := by
      simp [h1, h2, h3]
    constructor
    · intro hk
      have hkf : Server.jsFalsy apiKey = true := by simp [Server.jsFalsy, hk]
      simp [Server.handleBusinessDetails, hfal, hkf]
    · intro hkf
      refine ⟨?_, ?_, ?_⟩
      · intro e he
        simp [Server.handleBusinessDetails, hfal, hkf, he]
      · intro he
        constructor
        · simp [Server.handleBusinessDetails, hfal, hkf, he]
        · exact ⟨("Business details not found for the provided information."),
            by simp [Server.handleBusinessDetails, hfal, hkf, he]⟩
      · intro bd he
        simp [Server.handleBusinessDetails, hfal, hkf, he]

theorem claim_C6_witness :
    Server.handleBusinessDetails (some ("key")) 
        { name := some ("louvre"), address := some ("rivoli"), postalCode := some ("75001") }
        (fun _ _ _ _ => Except.ok (some bdWitC1)) =
      { status := 200, body := Server.ResponseBody.detailsBody bdWitC1 } :=
  (((claim_C6_endpoint (some ("key"))
      { name := some ("louvre"), address := some ("rivoli"), postalCode := some ("75001") }
      (fun _ _ _ _ => Except.ok (some bdWitC1))).2 (by decide) (by decide) (by decide)).2
        (by decide)).2.2 bdWitC1 rfl

theorem postInitState_idem (e : PartTwo.Env) (st : PartTwo.ModuleState) :
    PartTwo.postInitState e (PartTwo.postInitState e st) = PartTwo.postInitState e st := by
  rcases st with ⟨lm, ci, gw⟩
  cases lm <;> cases ci <;> cases hp : e.pipelineOk <;>
    simp [PartTwo.postInitState, PartTwo.initializeLLM, PartTwo.initializeCommonNameFilters, hp]

/-- C7 (amended): part_002's getBusinessDetailsFromPlaces does mutate module
state, but only through its idempotent one-time initializers, so under a
fixed environment (identical external responses) a preceding call never
changes what a subsequent call returns or the state it leaves: running a call
from the state left by any prior call gives exactly the result-state pair of
running it from the prior state itself. -/
theorem claim_C7_initializer_stability (e : PartTwo.Env) (st : PartTwo.ModuleState)
    (n a p k n2 a2 p2 k2 : String) :
    PartTwo.getBusinessDetailsFromPlaces e n2 a2 p2 k2
        ((PartTwo.getBusinessDetailsFromPlaces e n a p k st).2) =
      PartTwo.getBusinessDetailsFromPlaces e n2 a2 p2 k2 st := by
  simp only [PartTwo.getBusinessDetailsFromPlaces]
  rw [postInitState_idem]

/-- C7 counterexample: the claim that no module-level variable is mutated by
a call to getBusinessDetailsFromPlaces fails on part_002: a single call from
the fresh module state flips _commonNamesInitialized (and assigns
_genericNameWords and llmMatcher), so the state after the call differs from
the state before it. -/
theorem claim_C7_counterexample :
    (PartTwo.getBusinessDetailsFromPlaces envWitC7 ("a") ("b") ("c") ("k")
        PartTwo.ModuleState.start).2 ≠ PartTwo.ModuleState.start := by
  intro h
  have h2 := congrArg PartTwo.ModuleState.commonNamesInitialized h
  have hl : (PartTwo.getBusinessDetailsFromPlaces envWitC7 ("a") ("b") ("c") ("k")
      PartTwo.ModuleState.start).2.commonNamesInitialized = true := rfl
  have hr : PartTwo.ModuleState.start.commonNamesInitialized = false := rfl
  rw [hl, hr] at h2
  exact Bool.noConfusion h2

end Places
